import Mathlib

/-
Shallow embedding of the batch composition and orchestration engine of
src/library/gui/analysis_page.py (VesselVio analysis page).

The GUI combo boxes hold plain strings, and the original code branches on
those strings ("Volume", "Graph", "None", "ID", "RGB", "CSV"), so modes are
carried here as strings exactly as the code compares them.  The file table
(FileSheet) is reduced to the data the logic reads from it: its column count
and row count.  Python truthiness of the annotation dictionary (None and the
empty dict are falsy) is modelled by the function truthy on Option.
-/

set_option autoImplicit false
set_option linter.unusedVariables false

namespace VesselVio

/-- An RGB color triple, as stored in a region definition of the catalog. -/
abbrev Color := Nat × Nat × Nat

/-- The body of an annotation catalog: an association list from region name
to its color triple (a JSON object, so keys are unique in practice). -/
abbrev RegionMap := List (String × Color)

/-- A parsed top-level JSON document: an association list from top-level key
to region map. -/
abbrev Doc := List (String × RegionMap)

/-- Python truthiness of the annotation data attribute: the attribute holds
either None (modelled as none) or a dict (modelled as some list); None and
the empty dict are falsy. -/
def truthy : Option RegionMap → Bool
  | none => false
  | some l => !l.isEmpty

/-- The mutable file-loading state of LoadingWidget: the two file columns,
the loaded annotation data, and the file sheet's row count. -/
structure LoadingState where
  column1_files : List String
  column2_files : List String
  annotation_data : Option RegionMap
  rowCount : Nat
  deriving Repr, DecidableEq

/-- Embeds AnalysisPage.column_file_check: compares the lengths of the two
file columns. -/
def column_file_check (st : LoadingState) : Bool :=
  st.column1_files.length == st.column2_files.length

/-- Embeds AnalysisPage.file_check.  The original reads the dataset type,
annotation type and graph format from the combo boxes; they are passed here
as the strings the code compares against.  Line 250 of the source reads
`if not self.column_file_check() or self.Loading.annotation_data:
return False` — note the second disjunct is the truthiness of the loaded
annotation data itself, not its negation. -/
def file_check (datasetType annotationType graphFormat : String)
    (st : LoadingState) : Bool :=
  if st.column1_files = [] then false
  else if datasetType = "Volume" ∧ annotationType ≠ "None" ∧
      (column_file_check st = false ∨ truthy st.annotation_data = true) then false
  else if datasetType = "Graph" ∧ graphFormat = "CSV" ∧
      column_file_check st = false then false
  else true

/-- Embeds LoadingWidget.clear_files: empties both columns and sets the file
sheet's row count to zero (removing every status cell). -/
def clear_files (st : LoadingState) : LoadingState :=
  { st with column1_files := [], column2_files := [], rowCount := 0 }

/-- Embeds the row-creating effect of LoadingWidget.add_column1_files: rows
are inserted until the sheet has one row per column1 file. -/
def add_column1_files (st : LoadingState) : LoadingState :=
  { st with rowCount := max st.rowCount st.column1_files.length }

/-- Embeds the row-creating effect of LoadingWidget.add_column2_files. -/
def add_column2_files (st : LoadingState) : LoadingState :=
  { st with rowCount := max st.rowCount st.column2_files.length }

/-- Embeds LoadingWidget.remove_file for a selected row index.  `columns` is
the file sheet's current column count; the source deletes from
column1_files whenever the index is in range, but deletes from
column2_files only when the sheet has exactly 3 columns. -/
def remove_file (columns index : Nat) (st : LoadingState) : LoadingState :=
  let c1 := if index < st.column1_files.length
    then st.column1_files.eraseIdx index else st.column1_files
  let c2 := if columns = 3 then
      (if index < st.column2_files.length
        then st.column2_files.eraseIdx index else st.column2_files)
    else st.column2_files
  { st with column1_files := c1, column2_files := c2 }

/-- Embeds the registry effect of LoadingWidget.file_type_options: whatever
the new dataset type is, the handler ends with self.clear_files(). -/
def file_type_options (datasetType : String) (st : LoadingState) : LoadingState :=
  clear_files st

/-- Embeds the registry effect of LoadingWidget.annotation_options: when the
new annotation type is not at index 0 ("None") the sheet is re-formatted for
annotations; otherwise column2_files is emptied.  Either way the handler
ends with self.add_column1_files(), and column1_files is never touched. -/
def annotation_options (annotationType : String) (st : LoadingState) : LoadingState :=
  if annotationType ≠ "None" then add_column1_files st
  else add_column1_files { st with column2_files := [] }

/-- The fixed top-level key an annotation JSON document must carry. -/
def marker : String := "VesselVio Annotations"

/-- Embeds the structural test of LoadingWidget.load_annotation_file: the
parsed document passes when `len(annotation_data) != 1 or
"VesselVio Annotations" not in annotation_data.keys()` is false. -/
def structurally_valid (doc : Doc) : Bool :=
  doc.length == 1 && (doc.map Prod.fst).contains marker

/-- The region map stored under the marker key of the document (the empty
map when the key is absent; the code only reads it after validation, when
the key is present). -/
def lookupMarker (doc : Doc) : RegionMap :=
  (doc.lookup marker).getD []

/-- Whether some color triple occurs twice in the list. -/
def has_duplicate_color : List Color → Bool
  | [] => false
  | c :: rest => rest.contains c || has_duplicate_color rest

/-- Modelled from the spec: RGB_check is imported from
library.annotation_processing, whose source is not under src/.  Per the
spec, it scans all region definitions of the catalog body for duplicate
color triples and reports whether any two regions share one. -/
def RGB_check (data : RegionMap) : Bool :=
  has_duplicate_color (data.map Prod.snd)

/-- Outcome of one call to load_annotation_file. -/
inductive LoadStatus
  /-- The document failed structural validation; JSON_error was shown. -/
  | errored
  /-- The RGB duplicate-color warning was declined and the load returned. -/
  | aborted
  /-- The annotation data attribute was replaced by the document body. -/
  | loaded
  deriving Repr, DecidableEq

/-- Result of one call to load_annotation_file: the annotation data
attribute after the call, the outcome, and whether the duplicate-color
warning dialog was raised. -/
structure LoadResult where
  annotation_data : Option RegionMap
  status : LoadStatus
  warned : Bool
  deriving Repr, DecidableEq

/-- Embeds LoadingWidget.load_annotation_file on an already-parsed document.
`confirm` is the user's answer to the RGB_Warning dialog (true unless the
user clicks No); `prev` is the annotation data attribute before the call. -/
def load_annotation_file (annotationType : String) (doc : Doc) (confirm : Bool)
    (prev : Option RegionMap) : LoadResult :=
  if structurally_valid doc = false then ⟨prev, .errored, false⟩
  else
    let data := lookupMarker doc
    if annotationType = "RGB" ∧ RGB_check data = true then
      if confirm then ⟨some data, .loaded, true⟩
      else ⟨prev, .aborted, true⟩
    else ⟨some data, .loaded, false⟩

/-- The pending marker written into the status column. -/
def queued_marker : String := "Queued..."

/-- The prompt written into the progress column when the annotation data is
falsy. -/
def load_json_prompt : String := "Load JSON!"

/-- Embeds `len(self.annotation_data.keys())`: the number of regions in the
loaded catalog. -/
def region_count (ad : Option RegionMap) : Nat :=
  (ad.getD []).length

/-- The progress string chosen by LoadingWidget.update_queue under the
4-column sheet. -/
def progress_status (ad : Option RegionMap) : String :=
  if truthy ad then "0/" ++ toString (region_count ad) else load_json_prompt

/-- The cells written by one call to LoadingWidget.update_queue: the status
column (last column, one entry per row) and, when the sheet has 4 columns,
the regions-processed column. -/
structure QueueView where
  fileStatus : List String
  regionsProcessed : Option (List String)
  deriving Repr, DecidableEq

/-- Embeds LoadingWidget.update_queue: every row's last column is set to
the queued marker; when the sheet has 4 columns, every row's second-to-last
column is set to the progress string. -/
def update_queue (columnCount rowCount : Nat) (ad : Option RegionMap) : QueueView :=
  { fileStatus := List.replicate rowCount queued_marker,
    regionsProcessed :=
      if columnCount = 4 then
        some (List.replicate rowCount (progress_status ad))
      else none }

/-- The dataset type combo box holds exactly these two entries. -/
inductive DatasetType
  | volume
  | graph
  deriving Repr, DecidableEq

/-- The combo box text of a dataset type. -/
def DatasetType.text : DatasetType → String
  | .volume => "Volume"
  | .graph => "Graph"

/-- The annotation type combo box holds exactly these three entries. -/
inductive AnnotationType
  | noAnn
  | idAnn
  | rgbAnn
  deriving Repr, DecidableEq

/-- The combo box text of an annotation type. -/
def AnnotationType.text : AnnotationType → String
  | .noAnn => "None"
  | .idAnn => "ID"
  | .rgbAnn => "RGB"

/-- The graph format axis as the claims enumerate it: CSV or any other
format string. -/
inductive GraphFormat
  | csv
  | other
  deriving Repr, DecidableEq

/-- A combo box text of a graph format ("CSV" exactly, or a representative
non-CSV entry). -/
def GraphFormat.text : GraphFormat → String
  | .csv => "CSV"
  | .other => "Other"

/-- Column count set by FileSheet.init_default. -/
def init_default_cols : Nat := 2

/-- Column count set by FileSheet.init_csv. -/
def init_csv_cols : Nat := 3

/-- Column count set by FileSheet.init_annotation_view (init_annotation in
the source). -/
def init_ann_cols : Nat := 4

/-- Embeds the sheet-format effect of AnalysisPage.update_table_view on the
file sheet's column count (the Volume + "None" case falls through both
branches and leaves the sheet as it was). -/
def update_table_view (datasetType annotationType graphFormat : String)
    (cols : Nat) : Nat :=
  if datasetType = "Graph" then
    (if graphFormat ≠ "CSV" then init_default_cols else init_csv_cols)
  else if annotationType ≠ "None" then init_ann_cols
  else cols

/-- Embeds the sheet-format effect of LoadingWidget.file_type_options: the
sheet is reset to the default format unless the new dataset type is
"Graph". -/
def file_type_options_cols (datasetType : String) (cols : Nat) : Nat :=
  if datasetType = "Graph" then cols else init_default_cols

/-- Resolving the mode: a dataset-type change fires the connected slots in
connection order — LoadingWidget.file_type_options first, then
AnalysisPage.update_table_view — and the resulting sheet format is the
schema in force for the mode. -/
def resolve_mode (datasetType annotationType graphFormat : String)
    (cols : Nat) : Nat :=
  update_table_view datasetType annotationType graphFormat
    (file_type_options_cols datasetType cols)

/-- The schema table exactly as §3 of the spec states it, for comparison
with the resolution the code performs: Volume+None and Graph+non-CSV give 2
columns, Volume with annotations gives 4, Graph+CSV gives 3. -/
def schemaTableCols : DatasetType → AnnotationType → GraphFormat → Nat
  | .volume, .noAnn, _ => 2
  | .volume, _, _ => 4
  | .graph, _, .csv => 3
  | .graph, _, .other => 2

/-- The kind of analysis thread run_analysis can hold in self.a_thread. -/
inductive ThreadKind
  | volume
  | graph
  deriving Repr, DecidableEq

/-- The state of the AnalysisPage widget that run_analysis and load_files
read and write: the analyzed flag, the loading widget state, and the thread
attribute (none while the attribute is unset). -/
structure PageState where
  analyzed : Bool
  loading : LoadingState
  a_thread : Option ThreadKind
  deriving Repr, DecidableEq

/-- Observable outcome of one call to run_analysis. -/
inductive RunOutcome
  /-- analysis_warning was shown ("Load all files to run analysis.") and
  the call returned early. -/
  | warned
  /-- A thread was connected and started. -/
  | started (k : ThreadKind)
  /-- self.a_thread was never initialized, so connecting its signals raises
  AttributeError. -/
  | fault
  deriving Repr, DecidableEq

/-- Embeds AnalysisPage.run_analysis.  After the analyzed guard and the
file check, the source initializes the volume thread when the dataset type
equals "Volume" and the graph thread when it equals "Graph " (sic, with a
trailing space); otherwise self.a_thread keeps whatever value it had.  The
subsequent signal connections fault when the attribute was never set. -/
def run_analysis (datasetType annotationType graphFormat : String)
    (st : PageState) : PageState × RunOutcome :=
  if st.analyzed then (st, .warned)
  else if file_check datasetType annotationType graphFormat st.loading = false then
    (st, .warned)
  else
    let th := if datasetType = "Volume" then some ThreadKind.volume
      else if datasetType = "Graph " then some ThreadKind.graph
      else st.a_thread
    match th with
    | none => (st, .fault)
    | some k => ({ st with a_thread := some k, analyzed := true }, .started k)

/-- Embeds AnalysisPage.load_files after the picker returns: when an
analysis has already run, the registry is cleared first and the analyzed
flag is reset; then each non-empty selection is appended to its column and
the sheet rows are created. -/
def load_files (c1files c2files : List String) (st : PageState) : PageState :=
  let st1 := if st.analyzed then
      { st with loading := clear_files st.loading, analyzed := false }
    else st
  let l2 := if c1files ≠ [] then
      add_column1_files { st1.loading with
        column1_files := st1.loading.column1_files ++ c1files }
    else st1.loading
  let l3 := if c2files ≠ [] then
      add_column2_files { l2 with
        column2_files := l2.column2_files ++ c2files }
    else l2
  { st1 with loading := l3 }

/-- C1: the claim says file_check returns true for catalog-requiring modes
when both columns hold the same non-zero number of files and a non-empty
catalog is loaded, and false with no catalog.  The code does the opposite:
line 250 reads `or self.Loading.annotation_data` where the docstring
("True if loaded correctly") and the use of the catalog by
initialize_volume_analysis make clear the intent is `or not
self.Loading.annotation_data`.  With one volume, one annotation file and a
one-region catalog loaded, file_check is false; with the catalog missing it
is true. -/
theorem file_check_catalog_inversion_bug :
    file_check "Volume" "ID" "CSV"
        ⟨["a.nii"], ["b.nii"], some [("r", (1, 2, 3))], 1⟩ = false ∧
    file_check "Volume" "ID" "CSV" ⟨["a.nii"], ["b.nii"], none, 1⟩ = true := by
  decide

/-- C2: the claim says a run request on a batch that passes the file check
starts a graph session when the dataset type is Graph.  The code compares
the combo text to the string "Graph " with a trailing space (line 168), so
for a Graph CSV batch that passes the file check neither thread initializer
runs, self.a_thread is never set, and connecting its signals raises
AttributeError — modelled as the fault outcome.  The Volume path, by
contrast, starts a volume session. -/
theorem run_analysis_graph_thread_bug :
    run_analysis "Graph" "None" "CSV"
        ⟨false, ⟨["v.csv"], ["e.csv"], none, 1⟩, none⟩
      = (⟨false, ⟨["v.csv"], ["e.csv"], none, 1⟩, none⟩, RunOutcome.fault) ∧
    (run_analysis "Volume" "None" "CSV"
        ⟨false, ⟨["a.nii"], [], none, 1⟩, none⟩).2
      = RunOutcome.started ThreadKind.volume := by
  decide

/-- C3 counterexample: on a registry of size K = 1 under the 4-column
annotation sheet, removing row 0 deletes the column1 entry but leaves
column2 with 1 entry, not K - 1 = 0, refuting the claim that both columns
shrink whenever a second column of files exists. -/
theorem remove_file_four_column_counterexample :
    (remove_file 4 0 ⟨["a"], ["b"], none, 1⟩).column1_files.length = 0 ∧
    (remove_file 4 0 ⟨["a"], ["b"], none, 1⟩).column2_files = ["b"] ∧
    (remove_file 4 0 ⟨["a"], ["b"], none, 1⟩).column2_files.length ≠ 1 - 1 := by
  decide

/-- C3 as amended: remove_file deletes exactly one entry from column1 at an
in-range index, shifting later rows down by one; it deletes the matching
column2 entry only when the sheet has exactly 3 columns (the CSV schema),
and leaves column2 unchanged under any other column count; an out-of-range
index is a no-op on the respective column. -/
theorem remove_file_spec (columns index : Nat) (st : LoadingState) :
    (index < st.column1_files.length →
      (remove_file columns index st).column1_files
          = st.column1_files.take index ++ st.column1_files.drop (index + 1) ∧
      (remove_file columns index st).column1_files.length
          = st.column1_files.length - 1) ∧
    (st.column1_files.length ≤ index →
      (remove_file columns index st).column1_files = st.column1_files) ∧
    (columns = 3 → index < st.column2_files.length →
      (remove_file columns index st).column2_files
          = st.column2_files.take index ++ st.column2_files.drop (index + 1) ∧
      (remove_file columns index st).column2_files.length
          = st.column2_files.length - 1) ∧
    (columns ≠ 3 →
      (remove_file columns index st).column2_files = st.column2_files) ∧
    (columns = 3 → st.column2_files.length ≤ index →
      (remove_file columns index st).column2_files = st.column2_files) := by
  refine ⟨fun h => ⟨?_, ?_⟩, fun h => ?_, fun hc h => ⟨?_, ?_⟩, fun hc => ?_,
    fun hc h => ?_⟩
  · simp [remove_file, h, List.eraseIdx_eq_take_drop_succ]
  · simp [remove_file, h, List.length_eraseIdx]
  · simp [remove_file, Nat.not_lt.2 h]
  · subst hc
    simp [remove_file, h, List.eraseIdx_eq_take_drop_succ]
  · subst hc
    simp [remove_file, h, List.length_eraseIdx]
  · simp [remove_file, hc]
  · subst hc
    simp [remove_file, Nat.not_lt.2 h]

/-- Witness for the amended C3 theorem at a concrete registry: under the
3-column sheet, removing row 0 of a 2-row registry deletes the first entry
of each column. -/
theorem remove_file_spec_witness :
    (remove_file 3 0 ⟨["a", "b"], ["c", "d"], none, 2⟩).column1_files
        = ["a", "b"].take 0 ++ ["a", "b"].drop 1 ∧
    (remove_file 3 0 ⟨["a", "b"], ["c", "d"], none, 2⟩).column2_files
        = ["c", "d"].take 0 ++ ["c", "d"].drop 1 :=
  ⟨((remove_file_spec 3 0 ⟨["a", "b"], ["c", "d"], none, 2⟩).1 (by decide)).1,
   (((remove_file_spec 3 0 ⟨["a", "b"], ["c", "d"], none, 2⟩).2.2.1 rfl (by decide))).1⟩

/-- C4 counterexample: with one file loaded in column1, changing the
annotation type from None to ID fires annotation_options, after which
column1_files still holds the file — the registry is not reset, refuting
the claim that every mode-input change empties both columns. -/
theorem mode_change_reset_counterexample :
    (annotation_options "ID" ⟨["a"], [], none, 1⟩).column1_files = ["a"] ∧
    (["a"] : List String) ≠ [] := by
  decide

/-- C4 as amended: a dataset-type change (file_type_options) empties both
columns of the registry; an annotation-type change (annotation_options)
leaves column1_files unchanged and empties column2_files exactly when the
new annotation type is None. -/
theorem mode_change_registry_spec (datasetType annotationType : String)
    (st : LoadingState) :
    (file_type_options datasetType st).column1_files = [] ∧
    (file_type_options datasetType st).column2_files = [] ∧
    (annotation_options annotationType st).column1_files = st.column1_files ∧
    (annotationType = "None" →
      (annotation_options annotationType st).column2_files = []) ∧
    (annotationType ≠ "None" →
      (annotation_options annotationType st).column2_files = st.column2_files) := by
  refine ⟨rfl, rfl, ?_, fun h => ?_, fun h => ?_⟩
  · by_cases h : annotationType = "None" <;>
      simp [annotation_options, add_column1_files, h]
  · simp [annotation_options, add_column1_files, h]
  · simp [annotation_options, add_column1_files, h]

/-- Witness for the amended C4 theorem: switching the annotation type back
to None empties column2_files of a registry holding one pair. -/
theorem mode_change_registry_spec_witness :
    (annotation_options "None" ⟨["a"], ["b"], none, 1⟩).column2_files = [] :=
  (mode_change_registry_spec "Volume" "None" ⟨["a"], ["b"], none, 1⟩).2.2.2.1 rfl

/-- C5: file_check returns false whenever column1 is empty, and — for the
column2-requiring modes the claim lists, annotated Volume or Graph with CSV
format — whenever the two columns hold different numbers of files. -/
theorem file_check_gate (datasetType annotationType graphFormat : String)
    (st : LoadingState)
    (h : st.column1_files = [] ∨
      (((datasetType = "Volume" ∧ annotationType ≠ "None") ∨
        (datasetType = "Graph" ∧ graphFormat = "CSV")) ∧
       st.column1_files.length ≠ st.column2_files.length)) :
    file_check datasetType annotationType graphFormat st = false := by
  rcases h with h1 | ⟨hm, hne⟩
  · simp [file_check, h1]
  · have hcc : column_file_check st = false := by
      simp [column_file_check, hne]
    rcases hm with ⟨hd, ha⟩ | ⟨hd, hg⟩
    · subst hd
      simp [file_check, ha, hcc]
    · subst hd
      simp [file_check, hg, hcc]

/-- Witness for the C5 theorem: a Graph CSV batch with one vertex file and
no edge file fails the check. -/
theorem file_check_gate_witness :
    file_check "Graph" "None" "CSV" ⟨["v.csv"], [], none, 1⟩ = false :=
  file_check_gate "Graph" "None" "CSV" ⟨["v.csv"], [], none, 1⟩
    (Or.inr ⟨Or.inr ⟨rfl, rfl⟩, by decide⟩)

/-- C6: for all 9 mode combinations, resolving the mode — the dataset-type
change handlers in connection order, file_type_options then
update_table_view — yields exactly the §3 schema table regardless of the
sheet's prior column count (so AnnotationType is ignored under Graph and
GraphFormat under Volume by construction of the table), and resolving again
from the resulting sheet yields the same schema. -/
theorem resolve_mode_table (d : DatasetType) (a : AnnotationType)
    (g : GraphFormat) (cols : Nat) :
    resolve_mode d.text a.text g.text cols = schemaTableCols d a g ∧
    resolve_mode d.text a.text g.text (resolve_mode d.text a.text g.text cols)
      = resolve_mode d.text a.text g.text cols := by
  cases d <;> cases a <;> cases g <;>
    simp [resolve_mode, update_table_view, file_type_options_cols,
      schemaTableCols, DatasetType.text, AnnotationType.text, GraphFormat.text,
      init_default_cols, init_csv_cols, init_ann_cols]

/-- C7 counterexample: a structurally valid RGB document whose two regions
share a color triple is not loaded when the user declines the warning, so
loading does not succeed if and only if the document is structurally
valid. -/
theorem load_annotation_file_iff_counterexample :
    structurally_valid
        [("VesselVio Annotations", [("r1", (1, 2, 3)), ("r2", (1, 2, 3))])]
      = true ∧
    (load_annotation_file "RGB"
        [("VesselVio Annotations", [("r1", (1, 2, 3)), ("r2", (1, 2, 3))])]
        false none).status ≠ LoadStatus.loaded ∧
    (load_annotation_file "RGB"
        [("VesselVio Annotations", [("r1", (1, 2, 3)), ("r2", (1, 2, 3))])]
        false none).annotation_data = none := by
  decide

/-- C7 as amended: loading succeeds exactly when the document is
structurally valid (exactly one top-level key equal to the marker) and the
load is not aborted by declining the RGB duplicate-color warning; a
malformed document is rejected with the error state; and whenever the load
does not succeed the previously loaded catalog data is unchanged. -/
theorem load_annotation_file_spec (annotationType : String) (doc : Doc)
    (confirm : Bool) (prev : Option RegionMap) :
    ((load_annotation_file annotationType doc confirm prev).status
        = LoadStatus.loaded ↔
      structurally_valid doc = true ∧
      ¬(annotationType = "RGB" ∧ RGB_check (lookupMarker doc) = true ∧
        confirm = false)) ∧
    (structurally_valid doc = false →
      load_annotation_file annotationType doc confirm prev
        = ⟨prev, LoadStatus.errored, false⟩) ∧
    ((load_annotation_file annotationType doc confirm prev).status
        ≠ LoadStatus.loaded →
      (load_annotation_file annotationType doc confirm prev).annotation_data
        = prev) ∧
    ((load_annotation_file annotationType doc confirm prev).status
        = LoadStatus.loaded →
      (load_annotation_file annotationType doc confirm prev).annotation_data
        = some (lookupMarker doc)) := by
  by_cases hv : structurally_valid doc = false
  · simp [load_annotation_file, hv]
  · have hv2 : structurally_valid doc = true := by
      cases hval : structurally_valid doc
      · exact absurd hval hv
      · rfl
    by_cases hr : annotationType = "RGB" ∧ RGB_check (lookupMarker doc) = true
    · cases confirm
      · simp [load_annotation_file, hv2, hr.1, hr.2]
      · simp [load_annotation_file, hv2, hr.1, hr.2]
    · have h3 : ¬(annotationType = "RGB" ∧
          RGB_check (lookupMarker doc) = true ∧ confirm = false) :=
        fun hx => hr ⟨hx.1, hx.2.1⟩
      simp [load_annotation_file, hv2, hr, h3]

/-- Witness for the amended C7 theorem: rejecting a wrong-key document
leaves no catalog loaded. -/
theorem load_annotation_file_spec_witness :
    (load_annotation_file "ID" [("foo", [])] true none).annotation_data
      = none :=
  (load_annotation_file_spec "ID" [("foo", [])] true none).2.2.1 (by decide)

/-- C8: for a structurally valid document whose body fails the RGB
duplicate-color scan, loading under RGB annotation mode raises the warning;
declining leaves the previous catalog state unchanged (the load is
aborted), while confirming replaces the catalog with the document body. -/
theorem rgb_duplicate_warning_spec (doc : Doc) (prev : Option RegionMap)
    (hv : structurally_valid doc = true)
    (hd : RGB_check (lookupMarker doc) = true) :
    (load_annotation_file "RGB" doc false prev).warned = true ∧
    (load_annotation_file "RGB" doc false prev).annotation_data = prev ∧
    (load_annotation_file "RGB" doc false prev).status = LoadStatus.aborted ∧
    (load_annotation_file "RGB" doc true prev).warned = true ∧
    (load_annotation_file "RGB" doc true prev).annotation_data
      = some (lookupMarker doc) := by
  simp [load_annotation_file, hv, hd]

/-- Witness for the C8 theorem: declining the warning on a two-region
duplicate-color document keeps the previously loaded one-region catalog. -/
theorem rgb_duplicate_warning_spec_witness :
    (load_annotation_file "RGB"
        [("VesselVio Annotations", [("r1", (1, 2, 3)), ("r2", (1, 2, 3))])]
        false (some [("p", (0, 0, 0))])).annotation_data
      = some [("p", (0, 0, 0))] :=
  (rgb_duplicate_warning_spec
    [("VesselVio Annotations", [("r1", (1, 2, 3)), ("r2", (1, 2, 3))])]
    (some [("p", (0, 0, 0))]) (by decide) (by decide)).2.1

/-- C9 counterexample: with an empty catalog loaded (annotation data is the
empty dict, which is falsy in Python), update_queue writes the load-catalog
prompt into the progress column, not the string "0/0" that the claim's
"0/<N> where N is the number of regions in the loaded catalog" requires. -/
theorem update_queue_empty_catalog_counterexample :
    (update_queue 4 1 (some [])).regionsProcessed = some [load_json_prompt] ∧
    load_json_prompt ≠ "0/" ++ toString (region_count (some ([] : RegionMap))) := by
  decide

/-- C9 as amended: update_queue sets every row's status cell to the queued
marker; when the active sheet has 4 columns it sets every row's progress
cell to "0/<N>" with N the region count when a non-empty catalog is loaded,
and to the load-catalog prompt when no catalog is loaded or the loaded
catalog is empty; under any other column count the progress column is not
written. -/
theorem update_queue_spec (columnCount rowCount : Nat) (ad : Option RegionMap) :
    (update_queue columnCount rowCount ad).fileStatus
      = List.replicate rowCount queued_marker ∧
    (columnCount ≠ 4 →
      (update_queue columnCount rowCount ad).regionsProcessed = none) ∧
    (columnCount = 4 → (∃ l, ad = some l ∧ l ≠ []) →
      (update_queue columnCount rowCount ad).regionsProcessed
        = some (List.replicate rowCount ("0/" ++ toString (region_count ad)))) ∧
    (columnCount = 4 → (ad = none ∨ ad = some []) →
      (update_queue columnCount rowCount ad).regionsProcessed
        = some (List.replicate rowCount load_json_prompt)) := by
  refine ⟨rfl, fun h => ?_, fun h hl => ?_, fun h hl => ?_⟩
  · simp [update_queue, h]
  · subst h
    rcases hl with ⟨l, rfl, hne⟩
    simp [update_queue, progress_status, truthy, hne]
  · subst h
    rcases hl with rfl | rfl <;> simp [update_queue, progress_status, truthy]

/-- Witness for the amended C9 theorem: with a one-region catalog loaded on
a 2-row annotation sheet, both progress cells read "0/1". -/
theorem update_queue_spec_witness :
    (update_queue 4 2 (some [("r", (1, 2, 3))])).regionsProcessed
      = some (List.replicate 2
          ("0/" ++ toString (region_count (some [("r", (1, 2, 3))])))) :=
  (update_queue_spec 4 2 (some [("r", (1, 2, 3))])).2.2.1 rfl
    ⟨[("r", (1, 2, 3))], rfl, by decide⟩

/-- C10: once an analysis has started (the analyzed flag is set), every run
request returns early with the load-files warning and changes nothing, and
the first load request clears the whole registry — both columns and, via
the zeroed row count, all status cells — before appending the newly
selected files, resetting the analyzed flag. -/
theorem post_analysis_lockout (datasetType annotationType graphFormat : String)
    (c1files c2files : List String) (st : PageState) (h : st.analyzed = true) :
    run_analysis datasetType annotationType graphFormat st
      = (st, RunOutcome.warned) ∧
    (load_files c1files c2files st).analyzed = false ∧
    (load_files c1files c2files st).loading.column1_files = c1files ∧
    (load_files c1files c2files st).loading.column2_files = c2files ∧
    (load_files c1files c2files st).loading.rowCount
      = max c1files.length c2files.length := by
  refine ⟨by simp [run_analysis, h], ?_⟩
  by_cases h1 : c1files = [] <;> by_cases h2 : c2files = [] <;>
    simp [load_files, clear_files, add_column1_files, add_column2_files,
      h, h1, h2]

/-- Witness for the C10 theorem: after an analysis, a run request on the
untouched page warns and a load of two new files leaves exactly those two
files in column1. -/
theorem post_analysis_lockout_witness :
    run_analysis "Volume" "None" "CSV"
        ⟨true, ⟨["old"], ["old2"], none, 2⟩, some ThreadKind.volume⟩
      = (⟨true, ⟨["old"], ["old2"], none, 2⟩, some ThreadKind.volume⟩,
         RunOutcome.warned) ∧
    (load_files ["n1", "n2"] []
        ⟨true, ⟨["old"], ["old2"], none, 2⟩,
          some ThreadKind.volume⟩).loading.column1_files = ["n1", "n2"] :=
  ⟨(post_analysis_lockout "Volume" "None" "CSV" ["n1", "n2"] []
      ⟨true, ⟨["old"], ["old2"], none, 2⟩, some ThreadKind.volume⟩ rfl).1,
   (post_analysis_lockout "Volume" "None" "CSV" ["n1", "n2"] []
      ⟨true, ⟨["old"], ["old2"], none, 2⟩, some ThreadKind.volume⟩ rfl).2.2.1⟩

end VesselVio
